import Mathlib

/-!
Verification of the tourism-booking web application (app.py, init_db.py).

The development shallowly embeds the data-access layer (`_adapt_placeholders`,
`db_execute`, `get_db`/`close_db`, `log_action`), the relational state
(tables created by `init_db`), and the state effect of the route handlers
that the specification's claims are about (`register`, `admin_register`,
`book_package`, `delete_package`, `change_password`, `user_change_password`).

Modelling conventions:
- machine/SQL numbers are `Nat`, `Int` or `ℚ` (Python floats on package
  prices are modelled as exact rationals);
- fallible database calls are `Except String`;
- `request.form.get(k)` is `Option String` (`none` = field absent), and
  Python truthiness of such a value is `truthy` below;
- auto-increment ids (SQLite AUTOINCREMENT / Postgres BIGSERIAL) are
  modelled by per-table next-id counters in `DBState`.
-/

/-- The two storage backends selected by `IS_POSTGRES` in app.py. -/
inductive Backend where
  | sqlite
  | postgres
deriving DecidableEq

/-- Character-level translation of Python's `sql.replace("?", "%s")`
(app.py line 101).  The pattern is the single character `?` and the
replacement contains no `?`, so Python's left-to-right replace is exactly
this character map. -/
def replaceQmark : List Char → List Char
  | [] => []
  | c :: cs => if c == '?' then '%' :: 's' :: replaceQmark cs else c :: replaceQmark cs

/-- Translation of `_adapt_placeholders` (app.py lines 98-102): convert `?`
placeholders to `%s` for Postgres, return the SQL unchanged for SQLite. -/
def adapt_placeholders (backend : Backend) (sql : String) : String :=
  match backend with
  | .postgres => String.mk (replaceQmark sql.data)
  | .sqlite => sql

/-- SQL values carried in result rows. -/
inductive DbValue where
  | int (i : Int)
  | real (q : ℚ)
  | text (s : String)
  | null
deriving DecidableEq

/-- A result row, as the mapping from column names to values that both
`psycopg2.extras.RealDictCursor` rows and `sqlite3.Row` present. -/
def DbRow : Type := List (String × DbValue)

instance : DecidableEq DbRow := by
  unfold DbRow
  infer_instance

/-- Column lookup on a row (dict access `row[k]` / `"k" in row`). -/
def rowGet (r : DbRow) (k : String) : Option DbValue :=
  match r.find? (fun kv => kv.1 == k) with
  | some kv => some kv.2
  | none => none

/-- The Python value returned by `db_execute` on success. -/
inductive ExecRet where
  | pyNone
  | row (r : DbRow)
  | rows (rs : List DbRow)
  | idVal (v : DbValue)
deriving DecidableEq

/-- Translation of the Postgres last-row-id extraction (app.py line 132):
`new_row["id"] if new_row and "id" in new_row else (new_row[0] if new_row
else None)`.  `new_row[0]` on a dict-like row is modelled as its first
value; this branch is unreachable in the program because the executed
statement always ends in `RETURNING id`. -/
def pgExtractId (new_row : Option DbRow) : ExecRet :=
  match new_row with
  | none => .pyNone
  | some r =>
    match rowGet r ("id") with
    | some v => .idVal v
    | none =>
      match r.head? with
      | some kv => .idVal kv.2
      | none => .pyNone

/-- Whitespace test used by Python's `str.strip()` (the common ASCII
whitespace characters). -/
def isSpaceChar (c : Char) : Bool :=
  c == ' ' || c == '\t' || c == '\n' || c == '\r' || c == '\x0b' || c == '\x0c'

/-- Character-level `str.strip()`: drop leading and trailing whitespace. -/
def pyStrip (s : List Char) : List Char :=
  ((s.dropWhile isSpaceChar).reverse.dropWhile isSpaceChar).reverse

/-- Translation of app.py lines 124-127: strip the SQL, drop one trailing
semicolon, and append ` RETURNING id`. -/
def addReturningId (sql : String) : String :=
  let s := pyStrip sql.data
  let s2 := if s.getLast? == some ';' then s.dropLast else s
  String.mk (s2 ++ (" RETURNING id").data)

/-- Observable outcome of one `db_execute` call: the returned value or the
re-raised exception, whether `db.commit()` ran, whether `db.rollback()`
ran, and whether the cursor was closed (the `finally` block). -/
structure ExecTrace where
  result : Except String ExecRet
  committed : Bool
  rolledBack : Bool
  cursorClosed : Bool

/-- Translation of `db_execute` (app.py lines 105-183) over an abstract
statement executor `run`: given the SQL text actually executed, `run`
either fails (a raised database error) or yields the cursor's result rows
together with the cursor's `lastrowid` (meaningful on SQLite only). -/
def db_execute (backend : Backend) (run : String → Except String (List DbRow × Int))
    (sql : String) (fetchone fetchall commit return_lastrowid : Bool) : ExecTrace :=
  let sql2 := adapt_placeholders backend sql
  match backend with
  | .postgres =>
    if return_lastrowid then
      match run (addReturningId sql2) with
      | .ok (rs, _) => ⟨.ok (pgExtractId rs.head?), commit, false, true⟩
      | .error e => ⟨.error e, false, true, true⟩
    else
      match run sql2 with
      | .ok (rs, _) =>
        let result : ExecRet :=
          if fetchone then
            match rs.head? with
            | some r => .row r
            | none => .pyNone
          else if fetchall then .rows rs
          else .pyNone
        ⟨.ok result, commit, false, true⟩
      | .error e => ⟨.error e, false, true, true⟩
  | .sqlite =>
    match run sql2 with
    | .ok (rs, lastrowid) =>
      if return_lastrowid then ⟨.ok (.idVal (.int lastrowid)), commit, false, true⟩
      else if fetchone then
        ⟨.ok (match rs.head? with
              | some r => .row r
              | none => .pyNone), commit, false, true⟩
      else if fetchall then ⟨.ok (.rows rs), commit, false, true⟩
      else ⟨.ok .pyNone, commit, false, true⟩
    | .error e => ⟨.error e, false, true, true⟩

/-- The SQL text `db_execute` hands to the cursor, as a function of the
backend and the `return_lastrowid` flag. -/
def executedSql (backend : Backend) (sql : String) (return_lastrowid : Bool) : String :=
  match backend with
  | .postgres =>
    if return_lastrowid then addReturningId (adapt_placeholders backend sql)
    else adapt_placeholders backend sql
  | .sqlite => adapt_placeholders backend sql

/-- A concrete executor used to evaluate `db_execute` theorems on an
input: every statement succeeds with one row carrying an `id` column of
value 7 and cursor lastrowid 7. -/
def demoRun : String → Except String (List DbRow × Int) :=
  fun _ => .ok ([[(("id"), DbValue.int 7)]], 7)

/-- A concrete executor whose every statement raises a database error. -/
def demoFailRun : String → Except String (List DbRow × Int) :=
  fun _ => .error ("db error")

/-! ## Relational state

The tables created by `init_db` (init_db.py lines 45-156), with the
columns the claims are about.  `created_at` / `paid_at` / `booked_at`
timestamps are not modelled.  Auto-increment ids are modelled by the
`next*` counters.  Note that the schema declares *no* foreign-key
constraints on `bookings` or `payments`. -/

structure UserRow where
  id : Nat
  fullname : String
  email : String
  password_hash : String
  phone : Option String
  location : Option String
  address : Option String
deriving DecidableEq

structure AdminRow where
  id : Nat
  fullname : String
  email : String
  password_hash : String
  phone : Option String
  role : String
  avatar_url : String
deriving DecidableEq

structure PackageRow where
  id : Nat
  title : String
  location : String
  description : Option String
  price : ℚ
  days : String
  image_url : Option String
  status : String
deriving DecidableEq

structure BookingRow where
  id : Nat
  user_id : Nat
  package_id : Nat
  name : String
  email : String
  travel_date : String
  persons : Int
  status : String
deriving DecidableEq

structure PaymentRow where
  id : Nat
  booking_id : Nat
  user_id : Nat
  amount : ℚ
  payment_status : String
  payment_method : String
deriving DecidableEq

structure FeedbackRow where
  id : Nat
  user_name : Option String
  user_email : Option String
  subject : Option String
  message : String
deriving DecidableEq

/-- A row of `admin_activity` or `cloud_activity` (the actor id column is
nullable: `log_action(None, "guest", ...)` is called for guests). -/
structure ActivityRow where
  id : Nat
  actor_id : Option Nat
  role : String
  action : String
deriving DecidableEq

/-- The whole database state. -/
structure DBState where
  users : List UserRow
  admins : List AdminRow
  packages : List PackageRow
  bookings : List BookingRow
  payments : List PaymentRow
  feedback : List FeedbackRow
  admin_activity : List ActivityRow
  cloud_activity : List ActivityRow
  nextUserId : Nat
  nextAdminId : Nat
  nextPackageId : Nat
  nextBookingId : Nat
  nextPaymentId : Nat
  nextFeedbackId : Nat
  nextAdminActId : Nat
  nextCloudActId : Nat
deriving DecidableEq

/-- Stand-in for werkzeug's `generate_password_hash` (an external library,
not repository code): an injective tagging of the password. -/
def generate_password_hash (p : String) : String := ("pbkdf2-sha256$") ++ p

/-- Stand-in for werkzeug's `check_password_hash`: a hash checks exactly
against the password it was generated from. -/
def check_password_hash (h p : String) : Bool := h == generate_password_hash p

/-- Python truthiness of a `request.form.get(...)` value: `None` and the
empty string are falsy. -/
def truthy : Option String → Bool
  | none => false
  | some s => !s.isEmpty

/-- State effect of `log_action` (app.py lines 193-208): append one row to
`admin_activity` when the role is `admin`, else to `cloud_activity`.
Database errors are swallowed by the handler; in this pure state model the
insert always succeeds (see `log_action` below for the exception model). -/
def log_action_state (st : DBState) (actor : Option Nat) (role : String) (action : String) :
    DBState :=
  if role == ("admin") then
    { st with
      admin_activity := st.admin_activity ++ [⟨st.nextAdminActId, actor, role, action⟩],
      nextAdminActId := st.nextAdminActId + 1 }
  else
    { st with
      cloud_activity := st.cloud_activity ++ [⟨st.nextCloudActId, actor, role, action⟩],
      nextCloudActId := st.nextCloudActId + 1 }

/-- Translation of `init_db` (init_db.py lines 45-205): empty tables, one
seeded default admin (`admin@demo.com`), and two seeded demo packages.
Demo `days` values are the integers 4 and 5 inserted into a TEXT column;
they are modelled as the strings they are stored as. -/
def init_db : DBState :=
  { users := []
    admins := [⟨1, ("Admin"), ("admin@demo.com"), generate_password_hash ("admin123"),
                none, ("Administrator"), ("/static/admin_default.png")⟩]
    packages :=
      [⟨1, ("Beach Escape"), ("Goa"), some ("3N/4D seaside fun"), 12999, ("4"),
        some ("https://picsum.photos/seed/goa/800/500"), ("Available")⟩,
       ⟨2, ("Mountain Retreat"), ("Manali"), some ("4N/5D snow experience"), 17999, ("5"),
        some ("https://picsum.photos/seed/manali/800/500"), ("Available")⟩]
    bookings := []
    payments := []
    feedback := []
    admin_activity := []
    cloud_activity := []
    nextUserId := 1
    nextAdminId := 2
    nextPackageId := 3
    nextBookingId := 1
    nextPaymentId := 1
    nextFeedbackId := 1
    nextAdminActId := 1
    nextCloudActId := 1 }

/-- Outcomes of the `register` POST handler, reported to the user as
flashed messages. -/
inductive RegOutcome where
  | missingFields
  | success
  | dbError
deriving DecidableEq

/-- Translation of the POST branch of `register` (app.py lines 553-571).
The `users.email` UNIQUE constraint (init_db.py line 58) is modelled as
the pre-insert duplicate test: a duplicate email makes the INSERT raise,
the handler catches the exception and flashes an error, and no row is
added.  On success `log_action(None, "guest", ...)` runs. -/
def register (st : DBState) (fullname email password : Option String) :
    DBState × RegOutcome :=
  if !(truthy fullname && truthy email && truthy password) then (st, .missingFields)
  else if st.users.any (fun u => u.email == email.getD ("")) then (st, .dbError)
  else
    let st1 : DBState :=
      { st with
        users := st.users ++
          [⟨st.nextUserId, fullname.getD (""), email.getD (""),
            generate_password_hash (password.getD ("")), none, none, none⟩],
        nextUserId := st.nextUserId + 1 }
    (log_action_state st1 none ("guest") (("User registered: ") ++ email.getD ("")),
     .success)

/-- Outcomes of the `admin_register` POST handler. -/
inductive AdminRegOutcome where
  | missingFields
  | pwMismatch
  | success
  | dbError
deriving DecidableEq

/-- Translation of the POST branch of `admin_register` (app.py lines
719-748).  The `admins.email` UNIQUE constraint (init_db.py line 72) is
modelled as the pre-insert duplicate test making the INSERT raise; the
handler catches it and flashes an error.  The handler calls no
`log_action`.  New admins get the schema defaults for `role` and
`avatar_url` (init_db.py lines 75-76). -/
def admin_register (st : DBState) (fullname email password confirm_password : Option String) :
    DBState × AdminRegOutcome :=
  if !(truthy fullname && truthy email && truthy password && truthy confirm_password) then
    (st, .missingFields)
  else if password.getD ("") != confirm_password.getD ("") then (st, .pwMismatch)
  else if st.admins.any (fun a => a.email == email.getD ("")) then (st, .dbError)
  else
    ({ st with
       admins := st.admins ++
         [⟨st.nextAdminId, fullname.getD (""), email.getD (""),
           generate_password_hash (password.getD ("")), none, ("Administrator"),
           ("/static/admin_default.png")⟩],
       nextAdminId := st.nextAdminId + 1 },
     .success)

/-- Accumulate decimal digits; fails at the first non-digit character. -/
def digitsVal : List Char → Nat → Option Nat
  | [], acc => some acc
  | c :: cs, acc =>
    if c.isDigit then digitsVal cs (acc * 10 + (c.toNat - 48)) else none

/-- Stand-in for Python's `int()` on a form string: an optional sign
followed by at least one decimal digit (Python's extra whitespace and
underscore tolerance is not modelled; the claims only condition on a
successful parse). -/
def pyInt (s : String) : Option Int :=
  match s.data with
  | [] => none
  | '-' :: [] => none
  | '-' :: cs => (digitsVal cs 0).map (fun n => -(n : Int))
  | '+' :: [] => none
  | '+' :: cs => (digitsVal cs 0).map (fun n => (n : Int))
  | cs => (digitsVal cs 0).map (fun n => (n : Int))

/-- Outcomes of the `book_package` POST handler. -/
inductive BookOutcome where
  | packageNotFound
  | missingFields
  | bookingError
  | success
deriving DecidableEq

/-- Translation of the POST branch of `book_package` (app.py lines
314-364).  `int(persons)` is abstracted by `pyInt` (the claims
only condition on the parse succeeding); a failed parse raises before any
insert, is caught, and leaves the state unchanged.  On the success path
the handler inserts the booking (capturing its lastrowid), inserts the
payment, re-issues `UPDATE bookings SET status = 'Confirmed'` for the new
id, and logs the action as the user. -/
def book_package (st : DBState) (sess_user : Nat) (package_id : Nat)
    (name email travel_date persons : Option String) : DBState × BookOutcome :=
  match st.packages.find? (fun p => p.id == package_id) with
  | none => (st, .packageNotFound)
  | some pkg =>
    if !(truthy name && truthy email && truthy travel_date && truthy persons) then
      (st, .missingFields)
    else
      match pyInt (persons.getD ("")) with
      | none => (st, .bookingError)
      | some n =>
        let amount : ℚ := pkg.price * (n : ℚ)
        let booking_id := st.nextBookingId
        let st1 : DBState :=
          { st with
            bookings := st.bookings ++
              [⟨booking_id, sess_user, package_id, name.getD (""), email.getD (""),
                travel_date.getD (""), n, ("Confirmed")⟩],
            nextBookingId := booking_id + 1 }
        let st2 : DBState :=
          { st1 with
            payments := st1.payments ++
              [⟨st1.nextPaymentId, booking_id, sess_user, amount, ("SUCCESS"), ("ONLINE")⟩],
            nextPaymentId := st1.nextPaymentId + 1 }
        let st3 : DBState :=
          { st2 with
            bookings := st2.bookings.map
              (fun b => if b.id == booking_id then { b with status := ("Confirmed") } else b) }
        (log_action_state st3 (some sess_user) ("user")
           (("Booked package: ") ++ pkg.title), .success)

/-- Outcomes of the `delete_package` handler. -/
inductive DeleteOutcome where
  | notFound
  | deleted
deriving DecidableEq

/-- Translation of `delete_package` (app.py lines 470-479): 404 when the
package does not exist, else `DELETE FROM packages WHERE id = ?` followed
by an admin `log_action`.  No other table is touched: the schema has no
foreign keys, so bookings and payments referencing the package remain. -/
def delete_package (st : DBState) (sess_admin : Option Nat) (pid : Nat) :
    DBState × DeleteOutcome :=
  match st.packages.find? (fun p => p.id == pid) with
  | none => (st, .notFound)
  | some _ =>
    let st1 : DBState := { st with packages := st.packages.filter (fun p => !(p.id == pid)) }
    (log_action_state st1 sess_admin ("admin") (("Deleted package ID ") ++ toString pid),
     .deleted)

/-- Referential integrity of bookings: every bookings row references an
existing packages row and an existing users row. -/
def bookingRefsOK (st : DBState) : Bool :=
  st.bookings.all (fun b =>
    st.packages.any (fun p => p.id == b.package_id) &&
    st.users.any (fun u => u.id == b.user_id))

/-- Email uniqueness over the users table. -/
def usersEmailsUnique (st : DBState) : Prop :=
  (st.users.map (fun u => u.email)).Nodup

/-- Email uniqueness over the admins table. -/
def adminsEmailsUnique (st : DBState) : Prop :=
  (st.admins.map (fun a => a.email)).Nodup

/-! ## Request lifecycle (app.py lines 80-94)

Flask's `g` object is per-request; its `db` slot is modelled by `ReqCtx`.
`get_connection` is abstracted by a fresh-connection counter: opening a
connection yields the current counter value and increments it, so the
counter counts how many connections were ever opened. -/

/-- The per-request `g` object: `g.db` when set holds a connection id. -/
structure ReqCtx where
  db : Option Nat
deriving DecidableEq

/-- Translation of `get_db` (app.py lines 80-84): reuse `g.db` when
present, else open a fresh connection and attach it to `g`.  Returns the
connection handed to the caller, the new `g`, and the new fresh
counter. -/
def get_db (g : ReqCtx) (fresh : Nat) : Nat × ReqCtx × Nat :=
  match g.db with
  | some c => (c, g, fresh)
  | none => (fresh, ⟨some fresh⟩, fresh + 1)

/-- A request performing `n` successive `db_execute` calls, each of which
begins with `get_db` (app.py line 115).  Returns the list of connections
the calls used, the final `g`, and the final fresh counter. -/
def runRequest : Nat → ReqCtx → Nat → List Nat × ReqCtx × Nat
  | 0, g, fresh => ([], g, fresh)
  | Nat.succ n, g, fresh =>
    let r := get_db g fresh
    let rest := runRequest n r.2.1 r.2.2
    (r.1 :: rest.1, rest.2.1, rest.2.2)

/-- Translation of `close_db` (app.py lines 87-94), the
`teardown_appcontext` hook: pop `g.db` and close it when present.
Returns the connection that was closed (if any) and the cleared `g`. -/
def close_db (g : ReqCtx) : Option Nat × ReqCtx := (g.db, ⟨none⟩)

/-! ## Activity logging (app.py lines 193-208) -/

/-- Exception-level translation of `log_action`: the insert (through
`db_execute`, which re-raises database errors) is modelled by `ins`,
called with the exact SQL text the source selects for the backend and
role, and with the bound parameters.  The whole body is wrapped in
`try/except Exception`, which prints and swallows any error, so the
function itself never fails. -/
def log_action (backend : Backend)
    (ins : String → Option Int × String × String → Except String Unit)
    (user_id : Option Int) (role : String) (action : String) : Except String Unit :=
  let attempt : Except String Unit :=
    if role == ("admin") then
      match backend with
      | .postgres =>
        ins ("INSERT INTO admin_activity(admin_id, role, action) VALUES (%s, %s, %s)")
          (user_id, role, action)
      | .sqlite =>
        ins ("INSERT INTO admin_activity(admin_id, role, action) VALUES (?, ?, ?)")
          (user_id, role, action)
    else
      match backend with
      | .postgres =>
        ins ("INSERT INTO cloud_activity(user_id, role, action) VALUES (%s, %s, %s)")
          (user_id, role, action)
      | .sqlite =>
        ins ("INSERT INTO cloud_activity(user_id, role, action) VALUES (?, ?, ?)")
          (user_id, role, action)
  match attempt with
  | .ok _ => .ok ()
  | .error _ => .ok ()

/-! ## Change-password handlers (app.py lines 266-292 and 449-467) -/

/-- Outcome flashed or rendered by a change-password POST. `attrError`
is an uncaught `AttributeError` (HTTP 500). -/
inductive PwOutcome where
  | incorrectCurrent
  | mismatch
  | updated
  | attrError
deriving DecidableEq

/-- Observable trace of a change-password POST: whether
`check_password_hash` was invoked on the current password, the hash the
UPDATE statement wrote (if one ran), and the outcome. -/
structure PwTrace where
  checkedCurrent : Bool
  updatedHash : Option String
  outcome : PwOutcome
deriving DecidableEq

/-- The account row as the handlers see it: only the nullable
`password_hash` column is consulted. -/
structure AccountRow where
  password_hash : Option String
deriving DecidableEq

/-- Translation of the POST branch of `user_change_password` (app.py
lines 266-292).  The row lookup handles both backends' row shapes
(`user.get(...)` for dicts, key test for `sqlite3.Row`), so `stored_hash`
is the column value, `None` when the row is missing.  The current-password
check runs only when `stored_hash` is truthy. -/
def user_change_password (user : Option AccountRow)
    (current_password new_password confirm_password : String) : PwTrace :=
  let stored_hash : Option String :=
    match user with
    | none => none
    | some u => u.password_hash
  let checked := truthy stored_hash
  if checked && !(check_password_hash (stored_hash.getD ("")) current_password) then
    ⟨checked, none, .incorrectCurrent⟩
  else if new_password != confirm_password then ⟨checked, none, .mismatch⟩
  else ⟨checked, some (generate_password_hash new_password), .updated⟩

/-- Translation of the POST branch of the admin `change_password` (app.py
lines 449-467).  Here the source reads
`admin.get("password_hash") if admin else None`: on the Postgres backend
rows are dicts and `.get` works; on the SQLite backend a present row is a
`sqlite3.Row`, which has no `.get`, so the handler raises an uncaught
`AttributeError`.  When the row is missing, both backends behave alike. -/
def change_password (backend : Backend) (admin : Option AccountRow)
    (current_pwd new_pwd confirm_pwd : String) : PwTrace :=
  match admin with
  | none =>
    if new_pwd != confirm_pwd then ⟨false, none, .mismatch⟩
    else ⟨false, some (generate_password_hash new_pwd), .updated⟩
  | some a =>
    match backend with
    | .sqlite => ⟨false, none, .attrError⟩
    | .postgres =>
      let stored_hash := a.password_hash
      let checked := truthy stored_hash
      if checked && !(check_password_hash (stored_hash.getD ("")) current_pwd) then
        ⟨checked, none, .incorrectCurrent⟩
      else if new_pwd != confirm_pwd then ⟨checked, none, .mismatch⟩
      else ⟨checked, some (generate_password_hash new_pwd), .updated⟩

/-! ## Statement audit (claim about deletions)

Every SQL string handed to `db_execute` anywhere in app.py, paired with
the enclosing function.  Multi-line SQL strings are whitespace-normalised
to one line; the two f-string variants on app.py line 806 and the
backend-dependent variants in `admin_profile`, `admin_dashboard` and
`log_action` are listed individually. -/

def appStatements : List (String × String) :=
  [(("index"), ("SELECT * FROM packages ORDER BY created_at DESC LIMIT 3")),
   (("contact"), ("INSERT INTO feedback(user_name,user_email,subject,message) VALUES (?, ?, ?, ?)")),
   (("user_change_password"), ("SELECT * FROM users WHERE id = ?")),
   (("user_change_password"), ("UPDATE users SET password_hash = ? WHERE id = ?")),
   (("package_detail"), ("SELECT * FROM packages WHERE id = ?")),
   (("explore_packages"), ("SELECT * FROM packages WHERE title LIKE ? OR location LIKE ?")),
   (("explore_packages"), ("SELECT * FROM packages")),
   (("book_package"), ("SELECT * FROM packages WHERE id = ?")),
   (("book_package"), ("INSERT INTO bookings (user_id, package_id, name, email, travel_date, persons, status, booked_at) VALUES (?, ?, ?, ?, ?, ?, ?, ?)")),
   (("book_package"), ("INSERT INTO payments (booking_id, user_id, amount, payment_status, payment_method, paid_at) VALUES (?, ?, ?, ?, ?, ?)")),
   (("book_package"), ("UPDATE bookings SET status = ? WHERE id = ?")),
   (("book_package"), ("SELECT fullname, email FROM users WHERE id = ?")),
   (("my_bookings"), ("SELECT b.id, b.travel_date, b.persons, b.status, p.title, p.description, p.price, p.image_url FROM bookings b JOIN packages p ON b.package_id = p.id WHERE b.user_id = ? ORDER BY b.booked_at DESC")),
   (("add_package"), ("INSERT INTO packages (title, location, description, price, days, image_url, status) VALUES (?, ?, ?, ?, ?, ?, ?)")),
   (("edit_admin_profile"), ("SELECT * FROM admins WHERE id = ?")),
   (("edit_admin_profile"), ("UPDATE admins SET fullname=?, email=?, phone=? WHERE id=?")),
   (("edit_package"), ("SELECT * FROM packages WHERE id = ?")),
   (("edit_package"), ("UPDATE packages SET title=?, location=?, description=?, price=?, days=?, image_url=?, status=? WHERE id=?")),
   (("change_password"), ("SELECT * FROM admins WHERE id = ?")),
   (("change_password"), ("UPDATE admins SET password_hash=? WHERE id=?")),
   (("delete_package"), ("SELECT * FROM packages WHERE id = ?")),
   (("delete_package"), ("DELETE FROM packages WHERE id = ?")),
   (("all_bookings"), ("SELECT b.id, u.fullname AS user_name, u.email AS user_email, p.title AS package_name, b.booked_at AS booking_date, COALESCE(b.status, \x27Pending\x27) AS status FROM bookings b JOIN users u ON b.user_id = u.id JOIN packages p ON p.id = b.package_id ORDER BY b.booked_at DESC")),
   (("check_admin_email"), ("SELECT id FROM admins WHERE email = ?")),
   (("admin_profile"), ("SELECT * FROM admins WHERE id = ?")),
   (("admin_profile"), ("SELECT COUNT(*) as c FROM packages")),
   (("admin_profile"), ("SELECT COUNT(*) FROM packages")),
   (("admin_profile"), ("SELECT COUNT(*) as c FROM bookings")),
   (("admin_profile"), ("SELECT COUNT(*) FROM bookings")),
   (("admin_profile"), ("SELECT COUNT(*) as c FROM feedback")),
   (("admin_profile"), ("SELECT COUNT(*) FROM feedback")),
   (("view_users"), ("SELECT id, fullname, email, phone, created_at FROM users")),
   (("feedback_reports"), ("SELECT * FROM feedback ORDER BY created_at DESC")),
   (("register"), ("INSERT INTO users(fullname,email,password_hash) VALUES (?, ?, ?)")),
   (("login"), ("SELECT * FROM users WHERE email = ?")),
   (("check_email"), ("SELECT id FROM users WHERE email = ?")),
   (("main_dashboard"), ("SELECT COUNT(*) as c FROM bookings WHERE user_id = ?")),
   (("main_dashboard"), ("SELECT COUNT(*) as c FROM bookings WHERE user_id = ? AND date(travel_date) >= date(\x27now\x27)")),
   (("main_dashboard"), ("SELECT COUNT(*) as c FROM bookings WHERE user_id = ? AND date(travel_date) < date(\x27now\x27)")),
   (("main_dashboard"), ("SELECT p.title, p.location, b.travel_date FROM bookings b JOIN packages p ON p.id = b.package_id WHERE b.user_id = ? ORDER BY date(b.travel_date) DESC LIMIT 5")),
   (("admin_login"), ("SELECT * FROM admins WHERE email = ?")),
   (("update_profile"), ("UPDATE users SET fullname=?, email=?, phone=?, location=? WHERE id=?")),
   (("profile"), ("UPDATE users SET fullname=?, phone=?, address=? WHERE id=?")),
   (("profile"), ("SELECT * FROM users WHERE id=?")),
   (("admin_register"), ("INSERT INTO admins (fullname, email, password_hash) VALUES (?, ?, ?)")),
   (("admin_dashboard"), ("SELECT COUNT(*) AS c FROM users")),
   (("admin_dashboard"), ("SELECT COUNT(*) AS c FROM bookings")),
   (("admin_dashboard"), ("SELECT COALESCE(SUM(amount), 0) AS c FROM payments WHERE TRIM(LOWER(payment_status)) = \x27success\x27")),
   (("admin_dashboard"), ("SELECT EXISTS (SELECT 1 FROM information_schema.tables WHERE table_schema = \x27public\x27 AND table_name = \x27feedback\x27) AS exists")),
   (("admin_dashboard"), ("SELECT 1 FROM sqlite_master WHERE type=\x27table\x27 AND name=\x27feedback\x27")),
   (("admin_dashboard"), ("SELECT COUNT(*) AS c FROM feedback")),
   (("admin_dashboard"), ("SELECT fullname, email, avatar_url, phone, role FROM admins WHERE id = ?")),
   (("admin_dashboard"), ("SELECT fullname, email, avatar_url, phone, role FROM admins WHERE id = %s")),
   (("admin_packages"), ("SELECT * FROM packages")),
   (("log_action"), ("INSERT INTO admin_activity(admin_id, role, action) VALUES (%s, %s, %s)")),
   (("log_action"), ("INSERT INTO admin_activity(admin_id, role, action) VALUES (?, ?, ?)")),
   (("log_action"), ("INSERT INTO cloud_activity(user_id, role, action) VALUES (%s, %s, %s)")),
   (("log_action"), ("INSERT INTO cloud_activity(user_id, role, action) VALUES (?, ?, ?)"))]

/-- The statement's leading SQL verb is DELETE (all statements in the
source write their verbs in upper case). -/
def isDeleteSql (sql : String) : Bool :=
  sql.data.take 6 == ("DELETE").data

/-! ## Concrete scenario: init, register, book, delete -/

/-- Registering the user Alice on the freshly initialised database. -/
def regAlice : DBState × RegOutcome :=
  register init_db (some ("Alice")) (some ("alice@example.com")) (some ("wonder"))

/-- Alice (user id 1) books package 1 for 2 persons. -/
def bookAlice : DBState × BookOutcome :=
  book_package regAlice.1 1 1 (some ("Alice")) (some ("alice@example.com"))
    (some ("2026-01-01")) (some ("2"))

/-- The admin then deletes package 1, which Alice's booking references. -/
def delPkg1 : DBState × DeleteOutcome :=
  delete_package bookAlice.1 (some 1) 1

/-! ## Theorems -/

theorem replaceQmark_eq_bind (l : List Char) :
    replaceQmark l = l.flatMap (fun c => if c == '?' then ['%', 's'] else [c]) := by
  induction l with
  | nil => rfl
  | cons c cs ih =>
    simp only [replaceQmark, List.flatMap_cons, ih]
    split <;> simp

theorem replaceQmark_count (l : List Char) : (replaceQmark l).count '?' = 0 := by
  induction l with
  | nil => rfl
  | cons c cs ih =>
    by_cases h : c == '?'
    · simp_all [replaceQmark, List.count_cons]
    · simp_all [replaceQmark, List.count_cons]

/-- C3: `_adapt_placeholders` replaces every `?` character by `%s` when the
Postgres backend is active (each `?` becomes the two characters `%s`, no
`?` survives) and returns the SQL unchanged on the SQLite backend. -/
theorem adapt_placeholders_correct (sql : String) :
    (adapt_placeholders .postgres sql).data
        = sql.data.flatMap (fun c => if c == '?' then ['%', 's'] else [c])
    ∧ (adapt_placeholders .postgres sql).data.count '?' = 0
    ∧ adapt_placeholders .sqlite sql = sql := by
  refine ⟨?_, ?_, rfl⟩
  · simpa [adapt_placeholders] using replaceQmark_eq_bind sql.data
  · simpa [adapt_placeholders] using replaceQmark_count sql.data

/-- C2: `db_execute` returns, on a successful execution, the last inserted
id when `return_lastrowid` is set (from the cursor's lastrowid on SQLite,
from the `RETURNING id` row on Postgres), else the first row or `None`
when `fetchone` is set, else the row list when `fetchall` is set, else
`None`; `return_lastrowid` takes precedence over `fetchone`, which takes
precedence over `fetchall`, identically on both backends, and the
transaction is committed exactly when `commit` is true. -/
theorem db_execute_flag_semantics
    (run : String → Except String (List DbRow × Int)) (sql : String)
    (fetchone fetchall commit : Bool) :
    (∀ rs lid, run (adapt_placeholders .sqlite sql) = .ok (rs, lid) →
      ((db_execute .sqlite run sql fetchone fetchall commit true).result
          = .ok (.idVal (.int lid))
        ∧ (db_execute .sqlite run sql true fetchall commit false).result
          = .ok (match rs.head? with | some r => .row r | none => .pyNone)
        ∧ (db_execute .sqlite run sql false true commit false).result = .ok (.rows rs)
        ∧ (db_execute .sqlite run sql false false commit false).result = .ok .pyNone
        ∧ ∀ rl, (db_execute .sqlite run sql fetchone fetchall commit rl).committed = commit))
    ∧ (∀ rs lid, run (adapt_placeholders .postgres sql) = .ok (rs, lid) →
      ((db_execute .postgres run sql true fetchall commit false).result
          = .ok (match rs.head? with | some r => .row r | none => .pyNone)
        ∧ (db_execute .postgres run sql false true commit false).result = .ok (.rows rs)
        ∧ (db_execute .postgres run sql false false commit false).result = .ok .pyNone
        ∧ (db_execute .postgres run sql fetchone fetchall commit false).committed = commit))
    ∧ (∀ r0 rest lid newId,
        run (addReturningId (adapt_placeholders .postgres sql)) = .ok (r0 :: rest, lid) →
        rowGet r0 ("id") = some (.int newId) →
        ((db_execute .postgres run sql fetchone fetchall commit true).result
            = .ok (.idVal (.int newId))
          ∧ (db_execute .postgres run sql fetchone fetchall commit true).committed = commit)) := by
  refine ⟨?_, ?_, ?_⟩
  · intro rs lid h
    refine ⟨?_, ?_, ?_, ?_, ?_⟩
    · simp [db_execute, h]
    · cases hh : rs.head? <;> simp [db_execute, h, hh]
    · simp [db_execute, h]
    · simp [db_execute, h]
    · intro rl
      cases rl <;> cases fetchone <;> cases fetchall <;> simp [db_execute, h]
  · intro rs lid h
    refine ⟨?_, ?_, ?_, ?_⟩
    · cases hh : rs.head? <;> simp [db_execute, h, hh]
    · simp [db_execute, h]
    · simp [db_execute, h]
    · cases fetchone <;> cases fetchall <;> simp [db_execute, h]
  · intro r0 rest lid newId h1 h2
    constructor
    · simp [db_execute, h1, pgExtractId, h2]
    · simp [db_execute, h1]

/-- Witness for C2: on both backends, an insert executed through
`db_execute` with `return_lastrowid` (and with `fetchone`/`fetchall` also
set, exercising precedence) returns the new id 7. -/
theorem db_execute_flag_semantics_witness :
    (db_execute .sqlite demoRun ("INSERT INTO t(a) VALUES (?)") true true true true).result
      = .ok (.idVal (.int 7))
    ∧ (db_execute .postgres demoRun ("INSERT INTO t(a) VALUES (?)") true true true true).result
      = .ok (.idVal (.int 7)) := by
  have h := db_execute_flag_semantics demoRun ("INSERT INTO t(a) VALUES (?)") true true true
  exact ⟨(h.1 [[(("id"), DbValue.int 7)]] 7 rfl).1,
         (h.2.2 [(("id"), DbValue.int 7)] [] 7 7 rfl rfl).1⟩

/-- C4: on either backend, if executing the statement raises a database
error, `db_execute` rolls the transaction back, does not commit, closes
the cursor, and re-raises the same error; and the cursor is closed on
every call, failing or not. -/
theorem db_execute_error_rollback
    (backend : Backend) (run : String → Except String (List DbRow × Int))
    (sql : String) (fetchone fetchall commit rl : Bool) :
    (∀ e, run (executedSql backend sql rl) = .error e →
      db_execute backend run sql fetchone fetchall commit rl
        = ⟨.error e, false, true, true⟩)
    ∧ (db_execute backend run sql fetchone fetchall commit rl).cursorClosed = true := by
  constructor
  · intro e he
    cases backend with
    | sqlite =>
      simp only [executedSql] at he
      simp [db_execute, he]
    | postgres =>
      cases rl with
      | true =>
        simp [executedSql] at he
        simp [db_execute, he]
      | false =>
        simp [executedSql] at he
        simp [db_execute, he]
  · cases backend with
    | sqlite =>
      cases h : run (adapt_placeholders .sqlite sql) with
      | ok v =>
        cases rl <;> cases fetchone <;> cases fetchall <;> simp [db_execute, h]
      | error e => simp [db_execute, h]
    | postgres =>
      cases rl with
      | true =>
        cases h : run (addReturningId (adapt_placeholders .postgres sql)) with
        | ok v => simp [db_execute, h]
        | error e => simp [db_execute, h]
      | false =>
        cases h : run (adapt_placeholders .postgres sql) with
        | ok v => cases fetchone <;> cases fetchall <;> simp [db_execute, h]
        | error e => simp [db_execute, h]

/-- Witness for C4: a failing insert through `db_execute` on SQLite is
rolled back, not committed, its cursor closed, and the error re-raised. -/
theorem db_execute_error_rollback_witness :
    db_execute .sqlite demoFailRun ("SELECT 1") false false true false
      = ⟨.error ("db error"), false, true, true⟩ :=
  (db_execute_error_rollback .sqlite demoFailRun ("SELECT 1") false false true false).1
    ("db error") rfl

theorem log_action_state_users (st : DBState) (a : Option Nat) (r act : String) :
    (log_action_state st a r act).users = st.users := by
  unfold log_action_state
  split <;> rfl

theorem log_action_state_admins (st : DBState) (a : Option Nat) (r act : String) :
    (log_action_state st a r act).admins = st.admins := by
  unfold log_action_state
  split <;> rfl

theorem log_action_state_packages (st : DBState) (a : Option Nat) (r act : String) :
    (log_action_state st a r act).packages = st.packages := by
  unfold log_action_state
  split <;> rfl

theorem log_action_state_bookings (st : DBState) (a : Option Nat) (r act : String) :
    (log_action_state st a r act).bookings = st.bookings := by
  unfold log_action_state
  split <;> rfl

theorem log_action_state_payments (st : DBState) (a : Option Nat) (r act : String) :
    (log_action_state st a r act).payments = st.payments := by
  unfold log_action_state
  split <;> rfl

theorem log_action_state_feedback (st : DBState) (a : Option Nat) (r act : String) :
    (log_action_state st a r act).feedback = st.feedback := by
  unfold log_action_state
  split <;> rfl

theorem list_map_self {α : Type} (f : α → α) (l : List α) (h : ∀ x ∈ l, f x = x) :
    l.map f = l := by
  induction l with
  | nil => rfl
  | cons a t ih => simp_all

theorem runRequest_some (n c fresh : Nat) :
    runRequest n ⟨some c⟩ fresh = (List.replicate n c, ⟨some c⟩, fresh) := by
  induction n with
  | zero => rfl
  | succ n ih => simp [runRequest, get_db, ih, List.replicate_succ]

/-- C7: within one request, the connection is opened lazily (a request
with no `db_execute` call opens none), every one of the `n + 1` calls
uses the single connection opened by the first call (the fresh-connection
counter advances exactly once), and `close_db` at teardown closes exactly
that connection and clears the per-request slot. -/
theorem single_connection_per_request (n fresh : Nat) :
    runRequest 0 ⟨none⟩ fresh = ([], ⟨none⟩, fresh)
    ∧ runRequest (n + 1) ⟨none⟩ fresh
      = (List.replicate (n + 1) fresh, ⟨some fresh⟩, fresh + 1)
    ∧ close_db ⟨some fresh⟩ = (some fresh, ⟨none⟩)
    ∧ close_db ⟨none⟩ = (none, ⟨none⟩) := by
  refine ⟨rfl, ?_, rfl, rfl⟩
  simp [runRequest, get_db, runRequest_some, List.replicate_succ]

/-- C9: `log_action` returns normally for every input and every behaviour
of the underlying insert, including a failing one: the surrounding
`try/except Exception` swallows the error. -/
theorem log_action_never_raises (backend : Backend)
    (ins : String → Option Int × String × String → Except String Unit)
    (user_id : Option Int) (role : String) (action : String) :
    log_action backend ins user_id role action = .ok () := by
  unfold log_action
  cases backend <;> by_cases h : role == ("admin") <;> simp [h] <;> split <;> rfl

/-- C10: in both change-password handlers the current-password check runs
only when a stored hash is present (and truthy); when the account row is
missing — or, for the user handler, present with a NULL `password_hash` —
the check is skipped and the UPDATE with the new hash runs exactly when
the new password equals its confirmation, regardless of the
current-password field.  For the admin handler a present row always has a
non-NULL hash (`admins.password_hash` is NOT NULL), so the NULL case
coincides with the missing-row case. -/
theorem change_password_skips_check_without_hash
    (backend : Backend) (admin user : Option AccountRow)
    (current_password new_password confirm_password : String) :
    ((user_change_password user current_password new_password confirm_password).checkedCurrent
        = true →
      ∃ u h, user = some u ∧ u.password_hash = some h ∧ h ≠ "")
    ∧ ((change_password backend admin current_password new_password
          confirm_password).checkedCurrent = true →
      ∃ a h, admin = some a ∧ a.password_hash = some h ∧ h ≠ "")
    ∧ ((user = none ∨ ∃ u, user = some u ∧ u.password_hash = none) →
      (user_change_password user current_password new_password
          confirm_password).checkedCurrent = false
      ∧ ((user_change_password user current_password new_password
            confirm_password).outcome = .updated ↔ new_password = confirm_password)
      ∧ (new_password = confirm_password →
          (user_change_password user current_password new_password
              confirm_password).updatedHash = some (generate_password_hash new_password)))
    ∧ (admin = none →
      (change_password backend admin current_password new_password
          confirm_password).checkedCurrent = false
      ∧ ((change_password backend admin current_password new_password
            confirm_password).outcome = .updated ↔ new_password = confirm_password)
      ∧ (new_password = confirm_password →
          (change_password backend admin current_password new_password
              confirm_password).updatedHash = some (generate_password_hash new_password))) := by
  have he : ("" : String).isEmpty = true := rfl
  refine ⟨?_, ?_, ?_, ?_⟩
  · intro hc
    rcases user with _ | u
    · simp [user_change_password, truthy] at hc
      split at hc <;> simp_all
    · rcases hh : u.password_hash with _ | s
      · simp [user_change_password, hh, truthy] at hc
        split at hc <;> simp_all
      · refine ⟨u, s, rfl, hh, ?_⟩
        intro hs
        subst hs
        simp [user_change_password, hh, truthy, he] at hc
        split at hc <;> simp_all
  · intro hc
    rcases admin with _ | a
    · simp [change_password] at hc
      split at hc <;> simp_all
    · cases backend with
      | sqlite => simp [change_password] at hc
      | postgres =>
        rcases hh : a.password_hash with _ | s
        · simp [change_password, hh, truthy] at hc
          split at hc <;> simp_all
        · refine ⟨a, s, rfl, hh, ?_⟩
          intro hs
          subst hs
          simp [change_password, hh, truthy, he] at hc
          split at hc <;> simp_all
  · intro hmiss
    have hnone : (match user with
        | none => (none : Option String)
        | some u => u.password_hash) = none := by
      rcases hmiss with h | ⟨u, hu, hh⟩
      · simp [h]
      · simp [hu, hh]
    by_cases hnc : new_password = confirm_password <;>
      simp [user_change_password, hnone, truthy, hnc]
  · intro hmiss
    subst hmiss
    by_cases hnc : new_password = confirm_password <;>
      simp [change_password, hnc]

/-- Witness for C10: with no account row, both handlers skip the
current-password check and update the password when the confirmation
matches, whatever the current-password field holds. -/
theorem change_password_skips_check_without_hash_witness :
    (user_change_password none ("whatever") ("npw") ("npw")).outcome = .updated
    ∧ (change_password .sqlite none ("whatever") ("npw") ("npw")).outcome = .updated := by
  have h := change_password_skips_check_without_hash .sqlite none none
    ("whatever") ("npw") ("npw")
  exact ⟨(h.2.2.1 (Or.inl rfl)).2.1.mpr rfl, (h.2.2.2 rfl).2.1.mpr rfl⟩


/-- C1: on a successful booking POST (the package exists, all four form
fields are filled, `persons` parses as an integer), the handler appends
exactly one payments row immediately after the one bookings row it
creates, with `payment_status` fixed to SUCCESS, `payment_method` ONLINE,
`booking_id` equal to the id returned for the new booking, `user_id` the
session user, and `amount` the package price multiplied by the number of
persons.  (`hfresh` is the auto-increment contract: no existing booking
already carries the id the database hands out next.) -/
theorem book_package_creates_payment
    (st : DBState) (sess_user package_id : Nat)
    (name email travel_date persons : Option String) (pkg : PackageRow) (n : Int)
    (hpkg : st.packages.find? (fun p => p.id == package_id) = some pkg)
    (hname : truthy name = true) (hemail : truthy email = true)
    (hdate : truthy travel_date = true) (hpers : truthy persons = true)
    (hparse : pyInt (persons.getD ("")) = some n)
    (hfresh : ∀ b ∈ st.bookings, b.id ≠ st.nextBookingId) :
    (book_package st sess_user package_id name email travel_date persons).2 = .success
    ∧ (book_package st sess_user package_id name email travel_date persons).1.payments
      = st.payments ++
        [⟨st.nextPaymentId, st.nextBookingId, sess_user, pkg.price * (n : ℚ),
          ("SUCCESS"), ("ONLINE")⟩]
    ∧ (book_package st sess_user package_id name email travel_date persons).1.bookings
      = st.bookings ++
        [⟨st.nextBookingId, sess_user, package_id, name.getD (""), email.getD (""),
          travel_date.getD (""), n, ("Confirmed")⟩] := by
  unfold book_package
  rw [hpkg]
  simp only [hname, hemail, hdate, hpers, hparse, Bool.and_self, Bool.not_true]
  refine ⟨rfl, ?_, ?_⟩
  · simp [log_action_state_payments]
  · simp [log_action_state_bookings, List.map_append]
    exact list_map_self _ _ (fun b hb => by simp [hfresh b hb])

/-- Witness for C1: Alice (user id 1) books package 1 for 2 persons on the
freshly initialised database: the one new payment row references the new
booking id 1 and totals 12999 × 2. -/
theorem book_package_creates_payment_witness :
    (book_package regAlice.1 1 1 (some ("Alice")) (some ("alice@example.com"))
        (some ("2026-01-01")) (some ("2"))).2 = .success
    ∧ (book_package regAlice.1 1 1 (some ("Alice")) (some ("alice@example.com"))
        (some ("2026-01-01")) (some ("2"))).1.payments
      = regAlice.1.payments ++
        [⟨regAlice.1.nextPaymentId, regAlice.1.nextBookingId, 1,
          (12999 : ℚ) * ((2 : Int) : ℚ), ("SUCCESS"), ("ONLINE")⟩] := by
  have h := book_package_creates_payment regAlice.1 1 1 (some ("Alice"))
    (some ("alice@example.com")) (some ("2026-01-01")) (some ("2"))
    ⟨1, ("Beach Escape"), ("Goa"), some ("3N/4D seaside fun"), 12999, ("4"),
      some ("https://picsum.photos/seed/goa/800/500"), ("Available")⟩ 2
    (by decide) (by decide) (by decide) (by decide) (by decide) (by decide) (by decide)
  exact ⟨h.1, h.2.1⟩

/-- C6: email uniqueness is an invariant of the users and the admins
table.  Registering a user (or an admin) whose email already exists makes
the INSERT raise against the UNIQUE constraint, the handler flashes an
error instead of success and no row is added; and the `register` /
`admin_register` operations preserve the uniqueness invariant, which holds
of the initial database. -/
theorem register_unique_email
    (st : DBState) (fullname email password confirm_password : Option String) :
    (∀ f e p, fullname = some f → email = some e → password = some p →
      f ≠ "" → e ≠ "" → p ≠ "" →
      st.users.any (fun u => u.email == e) = true →
      register st fullname email password = (st, .dbError))
    ∧ (usersEmailsUnique st → usersEmailsUnique (register st fullname email password).1)
    ∧ (∀ f e p, fullname = some f → email = some e → password = some p →
      confirm_password = some p → f ≠ "" → e ≠ "" → p ≠ "" →
      st.admins.any (fun a => a.email == e) = true →
      admin_register st fullname email password confirm_password = (st, .dbError))
    ∧ (adminsEmailsUnique st →
        adminsEmailsUnique (admin_register st fullname email password confirm_password).1)
    ∧ usersEmailsUnique init_db ∧ adminsEmailsUnique init_db := by
  refine ⟨?_, ?_, ?_, ?_, ?_, ?_⟩
  · intro f e p hf he hp hfne hene hpne hdup
    subst hf he hp
    simp [register, truthy, String.isEmpty_iff, hfne, hene, hpne, hdup]
  · intro hnd
    unfold register
    split
    · simpa using hnd
    · split
      · simpa using hnd
      · rename_i hdup
        simp only [usersEmailsUnique, log_action_state_users] at hnd ⊢
        simp only [List.map_append, List.map_cons, List.map_nil]
        rw [List.nodup_append]
        refine ⟨hnd, List.nodup_singleton _, ?_⟩
        intro x hx hx1
        simp at hx1
        subst hx1
        simp [List.any_eq_true] at hdup
        obtain ⟨u, hu, heq⟩ := List.mem_map.mp hx
        exact hdup u hu (by simpa using heq)
  · intro f e p hf he hp hcf hfne hene hpne hdup
    subst hf he hp
    subst hcf
    simp [admin_register, truthy, String.isEmpty_iff, hfne, hene, hpne, hdup]
  · intro hnd
    unfold admin_register
    split
    · simpa using hnd
    · split
      · simpa using hnd
      · split
        · simpa using hnd
        · rename_i hdup
          simp only [adminsEmailsUnique] at hnd ⊢
          simp only [List.map_append, List.map_cons, List.map_nil]
          rw [List.nodup_append]
          refine ⟨hnd, List.nodup_singleton _, ?_⟩
          intro x hx hx1
          simp at hx1
          subst hx1
          simp [List.any_eq_true] at hdup
          obtain ⟨a, ha, heq⟩ := List.mem_map.mp hx
          exact hdup a ha (by simpa using heq)
  · simp [usersEmailsUnique, init_db]
  · simp [adminsEmailsUnique, init_db]

/-- Witness for C6: re-registering Alice's email fails and leaves the
state unchanged, as does registering a second admin with the seeded
admin's email. -/
theorem register_unique_email_witness :
    register regAlice.1 (some ("Bob")) (some ("alice@example.com")) (some ("pw2"))
      = (regAlice.1, .dbError)
    ∧ admin_register init_db (some ("Eve")) (some ("admin@demo.com")) (some ("pw"))
        (some ("pw"))
      = (init_db, .dbError) := by
  have h := register_unique_email regAlice.1 (some ("Bob")) (some ("alice@example.com"))
    (some ("pw2")) none
  have h2 := register_unique_email init_db (some ("Eve")) (some ("admin@demo.com"))
    (some ("pw")) (some ("pw"))
  exact ⟨h.1 ("Bob") ("alice@example.com") ("pw2") rfl rfl rfl (by decide) (by decide)
          (by decide) (by decide),
         h2.2.2.1 ("Eve") ("admin@demo.com") ("pw") rfl rfl rfl rfl (by decide) (by decide)
          (by decide) (by decide)⟩

/-- C5 counterexample: in the reachable state where Alice registered and
booked package 1 (referential integrity holds there), the admin deleting
package 1 leaves Alice's booking referencing a package that no longer
exists — the deletion does not preserve the invariant, because the schema
has no foreign-key constraint from bookings to packages. -/
theorem delete_package_dangling_booking :
    regAlice.2 = .success
    ∧ bookAlice.2 = .success
    ∧ bookingRefsOK bookAlice.1 = true
    ∧ delPkg1.2 = .deleted
    ∧ bookingRefsOK delPkg1.1 = false := by decide

/-- C5 amended: the booking operation does preserve referential integrity
(it refuses to insert when the package does not exist, and the session
user exists in the users table), but `delete_package` preserves it only
when no booking references the deleted package. -/
theorem booking_refs_preserved_except_delete
    (st : DBState) (sess_user package_id : Nat)
    (name email travel_date persons : Option String)
    (sess_admin : Option Nat) (pid : Nat) :
    (st.users.any (fun u => u.id == sess_user) = true → bookingRefsOK st = true →
      bookingRefsOK
        (book_package st sess_user package_id name email travel_date persons).1 = true)
    ∧ (bookingRefsOK st = true →
      st.bookings.all (fun b => !(b.package_id == pid)) = true →
      bookingRefsOK (delete_package st sess_admin pid).1 = true) := by
  constructor
  · intro hu hOK
    unfold book_package
    cases hfind : st.packages.find? (fun p => p.id == package_id) with
    | none => simpa using hOK
    | some pkg =>
      by_cases hfields :
          (truthy name && truthy email && truthy travel_date && truthy persons) = true
      · cases hparse : pyInt (persons.getD ("")) with
        | none => simp [hfields, hparse, hOK]
        | some n =>
          simp only [hfields, hparse, Bool.not_true]
          rw [if_neg (show ¬(false = true) by simp)]
          have hmem : package_id ∈ st.packages.map (fun p => p.id) := by
            have hp := List.mem_of_find?_eq_some hfind
            have hq := List.find?_some hfind
            simp at hq
            exact List.mem_map.mpr ⟨pkg, hp, hq⟩
          simp only [bookingRefsOK, log_action_state_bookings, log_action_state_packages,
            log_action_state_users] at hOK ⊢
          simp only [List.all_eq_true, List.any_eq_true, Bool.and_eq_true, beq_iff_eq]
            at hOK ⊢
          intro b hb
          simp only [List.mem_map, List.mem_append, List.mem_singleton] at hb
          obtain ⟨b0, hb0 | hb0, hbeq⟩ := hb
          · have := hOK b0 hb0
            have hpk : b.package_id = b0.package_id ∧ b.user_id = b0.user_id := by
              subst hbeq
              by_cases hid : b0.id = st.nextBookingId <;> simp [hid]
            rcases this with ⟨⟨p, hp, hpe⟩, ⟨u, hhu, hue⟩⟩
            exact ⟨⟨p, hp, by rw [hpk.1]; exact hpe⟩, ⟨u, hhu, by rw [hpk.2]; exact hue⟩⟩
          · subst hb0
            have hpk : b.package_id = package_id ∧ b.user_id = sess_user := by
              subst hbeq
              simp
            obtain ⟨p, hp, hpe⟩ := List.mem_map.mp hmem
            simp only [List.any_eq_true, beq_iff_eq] at hu
            obtain ⟨u, hhu, hue⟩ := hu
            exact ⟨⟨p, hp, by rw [hpk.1]; exact hpe⟩, ⟨u, hhu, by rw [hpk.2]; exact hue⟩⟩
      · simp [hfields, hOK]
  · intro hOK hnone
    unfold delete_package
    cases hfind : st.packages.find? (fun p => p.id == pid) with
    | none => simpa using hOK
    | some pkg0 =>
      simp only [bookingRefsOK, log_action_state_bookings, log_action_state_packages,
        log_action_state_users] at hOK ⊢
      simp only [List.all_eq_true, List.any_eq_true, Bool.and_eq_true, beq_iff_eq,
        List.mem_filter] at hOK hnone ⊢
      intro b hb
      obtain ⟨⟨p, hp, hpe⟩, hu⟩ := hOK b hb
      have hbp := hnone b hb
      refine ⟨⟨p, ⟨hp, ?_⟩, hpe⟩, hu⟩
      simp only [Bool.not_eq_true', beq_eq_false_iff_ne, ne_eq]
      rw [hpe]
      simpa using hbp

/-- Witness for C5 amended: Alice's booking keeps integrity on the
registered database, and deleting a package nobody booked keeps it too. -/
theorem booking_refs_preserved_except_delete_witness :
    bookingRefsOK (book_package regAlice.1 1 1 (some ("Alice"))
        (some ("alice@example.com")) (some ("2026-01-01")) (some ("2"))).1 = true
    ∧ bookingRefsOK (delete_package init_db (some 1) 1).1 = true := by
  have h := booking_refs_preserved_except_delete regAlice.1 1 1 (some ("Alice"))
    (some ("alice@example.com")) (some ("2026-01-01")) (some ("2")) (some 1) 1
  have h2 := booking_refs_preserved_except_delete init_db 1 1 none none none none
    (some 1) 1
  exact ⟨h.1 (by decide) (by decide), h2.2 (by decide) (by decide)⟩

theorem length_filter_unique {α : Type} (f : α → Nat) (l : List α) (k : Nat)
    (hnd : (l.map f).Nodup) (hmem : l.any (fun x => f x == k) = true) :
    l.length = (l.filter (fun x => !(f x == k))).length + 1 := by
  induction l with
  | nil => simp at hmem
  | cons a t ih =>
    simp only [List.map_cons, List.nodup_cons] at hnd
    obtain ⟨hna, hnd2⟩ := hnd
    by_cases hak : f a = k
    · have ht : t.filter (fun x => !(f x == k)) = t := by
        rw [List.filter_eq_self]
        intro x hx
        simp only [Bool.not_eq_true', beq_eq_false_iff_ne, ne_eq]
        intro hxk
        exact hna (List.mem_map.mpr ⟨x, hx, by rw [hxk, hak]⟩)
      simp [List.filter_cons, hak, ht]
    · have hmem2 : t.any (fun x => f x == k) = true := by
        simp only [List.any_cons, Bool.or_eq_true, beq_iff_eq] at hmem
        rcases hmem with h | h
        · exact absurd h hak
        · simpa [List.any_eq_true] using h
      simp [List.filter_cons, hak, ih hnd2 hmem2]

set_option maxRecDepth 8000 in
/-- C8: across every SQL statement any route handler hands to
`db_execute`, the only DELETE statement is `delete_package`'s
`DELETE FROM packages WHERE id = ?`; and `delete_package` removes exactly
the one packages row with the given id (under the auto-increment
guarantee that package ids are distinct), leaving users, admins,
bookings, payments, feedback and the user-side activity log untouched and
only appending to the admin activity log. -/
theorem only_packages_rows_deleted
    (st : DBState) (sess_admin : Option Nat) (pid : Nat) :
    appStatements.filter (fun p => isDeleteSql p.2)
      = [(("delete_package"), ("DELETE FROM packages WHERE id = ?"))]
    ∧ (delete_package st sess_admin pid).1.packages
      = st.packages.filter (fun p => !(p.id == pid))
    ∧ (delete_package st sess_admin pid).1.users = st.users
    ∧ (delete_package st sess_admin pid).1.admins = st.admins
    ∧ (delete_package st sess_admin pid).1.bookings = st.bookings
    ∧ (delete_package st sess_admin pid).1.payments = st.payments
    ∧ (delete_package st sess_admin pid).1.feedback = st.feedback
    ∧ (∃ extra, (delete_package st sess_admin pid).1.admin_activity
        = st.admin_activity ++ extra)
    ∧ (delete_package st sess_admin pid).1.cloud_activity = st.cloud_activity
    ∧ ((st.packages.map (fun p => p.id)).Nodup →
      st.packages.any (fun p => p.id == pid) = true →
      st.packages.length = (delete_package st sess_admin pid).1.packages.length + 1) := by
  refine ⟨by decide, ?_, ?_, ?_, ?_, ?_, ?_, ?_, ?_, ?_⟩
  all_goals
    unfold delete_package
  · cases hfind : st.packages.find? (fun p => p.id == pid) with
    | none =>
      have : st.packages.filter (fun p => !(p.id == pid)) = st.packages := by
        rw [List.filter_eq_self]
        intro x hx
        have := List.find?_eq_none.mp hfind x hx
        simpa using this
      simp [this]
    | some pkg0 => simp [log_action_state_packages]
  · cases hfind : st.packages.find? (fun p => p.id == pid) with
    | none => rfl
    | some pkg0 => simp [log_action_state_users]
  · cases hfind : st.packages.find? (fun p => p.id == pid) with
    | none => rfl
    | some pkg0 => simp [log_action_state_admins]
  · cases hfind : st.packages.find? (fun p => p.id == pid) with
    | none => rfl
    | some pkg0 => simp [log_action_state_bookings]
  · cases hfind : st.packages.find? (fun p => p.id == pid) with
    | none => rfl
    | some pkg0 => simp [log_action_state_payments]
  · cases hfind : st.packages.find? (fun p => p.id == pid) with
    | none => rfl
    | some pkg0 => simp [log_action_state_feedback]
  · cases hfind : st.packages.find? (fun p => p.id == pid) with
    | none => exact ⟨[], by simp⟩
    | some pkg0 =>
      refine ⟨[⟨st.nextAdminActId, sess_admin, ("admin"),
        ("Deleted package ID ") ++ toString pid⟩], ?_⟩
      simp [log_action_state]
  · cases hfind : st.packages.find? (fun p => p.id == pid) with
    | none => rfl
    | some pkg0 => simp [log_action_state]
  · intro hnd hmem
    cases hfind : st.packages.find? (fun p => p.id == pid) with
    | none =>
      exfalso
      simp only [List.any_eq_true] at hmem
      obtain ⟨p, hp, hpe⟩ := hmem
      have := List.find?_eq_none.mp hfind p hp
      exact this hpe
    | some pkg0 =>
      simp only [log_action_state_packages]
      exact length_filter_unique (fun p => p.id) st.packages pid hnd hmem

/-- Witness for C8: deleting package 1 from the seeded database removes
exactly one row (two packages become one). -/
theorem only_packages_rows_deleted_witness :
    (delete_package init_db (some 1) 1).1.packages
      = init_db.packages.filter (fun p => !(p.id == 1))
    ∧ init_db.packages.length = (delete_package init_db (some 1) 1).1.packages.length + 1 := by
  have h := only_packages_rows_deleted init_db (some 1) 1
  exact ⟨h.2.1, h.2.2.2.2.2.2.2.2.2 (by decide) (by decide)⟩
